import Mathlib

/-!
# Verification of the cloud anomaly detection report pipeline

Shallow embedding of the report-generation and delivery pipeline of
`src/app.py` (a Streamlit dashboard): report composition (HTML and PDF),
base64 chart embedding, the empty-store guard around the report section,
and the email delivery channel (`send_email` plus the send-button handler).

Modelling conventions:
* pandas rows become `Record` values; the session history is a `List Record`
  in arrival order (`st.session_state.history`).
* A rendered chart (`create_anomaly_chart` / `create_cpu_chart` output) is a
  `ChartImage`: its PNG byte buffer plus its native drawing dimensions, which
  reportlab reads from the PNG header.  The matplotlib rendering itself is
  a black box; callers that invoke the renderers take them as function parameters.
* Python float arithmetic on the summary statistics is modelled in `ℚ`.
* A Python expression that can raise is modelled in `Except String`; the
  guarded float division of the anomaly rate goes through `pyDiv`, which
  errors exactly when the denominator is zero (ZeroDivisionError).
-/

/-- One observation record of the session history.  `app.py` reads exactly the
`prediction` column (anomaly flag, `1` = anomaly) and the `cpu_usage` column. -/
structure Record where
  cpu_usage : ℚ
  prediction : Int
deriving DecidableEq, Repr

/-- A rendered chart: PNG byte buffer (each byte `< 256`) together with its
native drawing size, as reportlab would read it from the PNG header. -/
structure ChartImage where
  data : List Nat
  width : ℚ
  height : ℚ
deriving DecidableEq, Repr

/-- Python `a / b` on numbers: raises ZeroDivisionError when `b = 0`. -/
def pyDiv (a b : ℚ) : Except String ℚ :=
  if b = 0 then Except.error "division by zero" else Except.ok (a / b)

/-- Python `str.strip()`: drop leading and trailing whitespace. -/
def pyStrip (s : String) : String :=
  String.mk (((s.data.dropWhile Char.isWhitespace).reverse.dropWhile
    Char.isWhitespace).reverse)

/-! ## Base64 (Python `base64.b64encode` / `base64.b64decode`)

`generate_html_report` embeds each chart PNG as
`base64.b64encode(chart_png).decode()`.  The encoder below maps each group of
three bytes to four alphabet characters, padding a final group of one or two
bytes with `=`; the decoder inverts this. -/

/-- The standard base64 alphabet, in index order. -/
def b64Alphabet : List Char :=
  "ABCDEFGHIJKLMNOPQRSTUVWXYZabcdefghijklmnopqrstuvwxyz0123456789+/".data

/-- The alphabet character of a 6-bit value. -/
def b64CharOf (n : Nat) : Char := b64Alphabet.getD n 'A'

/-- The 6-bit value of an alphabet character. -/
def b64IndexOf (c : Char) : Nat := b64Alphabet.indexOf c

/-- Python `base64.b64encode` on a byte list, producing the character stream of the
encoded string (groups of three bytes become four characters; a short final
group is padded with `=`). -/
def b64EncodeBytes : List Nat → List Char
  | [] => []
  | [b1] =>
      [b64CharOf (b1 / 4), b64CharOf (b1 % 4 * 16), '=', '=']
  | [b1, b2] =>
      [b64CharOf (b1 / 4), b64CharOf (b1 % 4 * 16 + b2 / 16),
       b64CharOf (b2 % 16 * 4), '=']
  | b1 :: b2 :: b3 :: rest =>
      b64CharOf (b1 / 4) :: b64CharOf (b1 % 4 * 16 + b2 / 16) ::
      b64CharOf (b2 % 16 * 4 + b3 / 64) :: b64CharOf (b3 % 64) ::
      b64EncodeBytes rest

/-- Python `base64.b64decode` on a character stream: each group of four characters
yields three bytes, or fewer when the group ends in `=` padding. -/
def b64DecodeChars : List Char → List Nat
  | c1 :: c2 :: c3 :: c4 :: rest =>
      let s1 := b64IndexOf c1
      let s2 := b64IndexOf c2
      if c3 = '=' then
        [s1 * 4 + s2 / 16]
      else
        let s3 := b64IndexOf c3
        if c4 = '=' then
          [s1 * 4 + s2 / 16, s2 % 16 * 16 + s3 / 4]
        else
          (s1 * 4 + s2 / 16) :: (s2 % 16 * 16 + s3 / 4) ::
          (s3 % 4 * 64 + b64IndexOf c4) :: b64DecodeChars rest
  | _ => []

/-! ## Report composer -/

/-- The content of the HTML document assembled by `generate_html_report`, field
by field in template order: the two inline base64 chart images, the three
summary numbers interpolated into the Summary section (`len(df)`,
`len(anomalies)`, `anomaly_rate`), and the Recent Data table
(`df.tail(10).to_html(index=False)`). -/
structure HtmlReport where
  chart1B64 : String
  chart2B64 : String
  totalSamples : Nat
  totalAnomalies : Nat
  anomalyRate : ℚ
  recentData : List Record
deriving DecidableEq, Repr

/-- One reportlab flowable appended to the PDF `story` by
`generate_pdf_report`:
* `para text style` — `Paragraph(text, styles[style])`;
* `spacer w h` — `Spacer(w, h)`;
* `summary total anomalies rate` — the summary `Paragraph` with the three
  interpolated statistics (`Normal` style);
* `image data w h` — `Image(BytesIO(png))` with draw size `(w, h)` after
  `_restrictSize(400, 200)`;
* `table rows` — a reportlab `Table` flowable showing the given records
  (available to a composer, though `generate_pdf_report` never appends one). -/
inductive PdfElem
  | para (text : String) (style : String)
  | spacer (w h : ℚ)
  | summary (total anomalies : Nat) (rate : ℚ)
  | image (data : List Nat) (drawWidth drawHeight : ℚ)
  | table (rows : List Record)
deriving DecidableEq, Repr

/-- The PDF document assembled by `generate_pdf_report`: its flowable story,
built on an A4 `SimpleDocTemplate`. -/
structure PdfReport where
  story : List PdfElem
deriving DecidableEq, Repr

/-- Modelled from the spec: reportlab's `Image._restrictSize(aW, aH)` (library
code, not part of `src/`), which the spec describes as constraining each chart
to the bounding box by a proportional downscale.  When the draw size exceeds
the box, both dimensions are multiplied by `factor = min (aW / w) (aH / h)`;
otherwise the size is unchanged.  (The library's `_FUZZ` tolerance of `1e-6`
is dropped in this exact-rational model.) -/
def restrictSize (aW aH w h : ℚ) : ℚ × ℚ :=
  if aW < w ∨ aH < h then
    (w * min (aW / w) (aH / h), h * min (aW / w) (aH / h))
  else (w, h)

/-- The function `generate_html_report(df, chart1_png, chart2_png)` of `src/app.py`:
base64-encode the two charts, compute `anomalies = df[df["prediction"] == 1]`
and `anomaly_rate = len(anomalies) / len(df) * 100 if len(df) else 0`, and
assemble the HTML document content. -/
def generate_html_report (df : List Record) (chart1_png chart2_png : ChartImage) :
    Except String HtmlReport :=
  let chart1_b64 := String.mk (b64EncodeBytes chart1_png.data)
  let chart2_b64 := String.mk (b64EncodeBytes chart2_png.data)
  let anomalies := df.filter fun r => r.prediction == 1
  match (if df.length ≠ 0
      then (pyDiv (anomalies.length : ℚ) (df.length : ℚ)).map (· * 100)
      else Except.ok 0) with
  | Except.error e => Except.error e
  | Except.ok anomaly_rate =>
      Except.ok
        { chart1B64 := chart1_b64
          chart2B64 := chart2_b64
          totalSamples := df.length
          totalAnomalies := anomalies.length
          anomalyRate := anomaly_rate
          recentData := df.drop (df.length - 10) }

/-- The function `generate_pdf_report(df, chart1_png, chart2_png)` of `src/app.py`:
compute `anomalies` and `anomaly_rate` exactly as the HTML path does, then
append to the story the title, a spacer, the summary paragraph, a spacer, the
two chart headings and images (each `_restrictSize(400, 200)`), with spacers
between. -/
def generate_pdf_report (df : List Record) (chart1_png chart2_png : ChartImage) :
    Except String PdfReport :=
  let anomalies := df.filter fun r => r.prediction == 1
  match (if df.length ≠ 0
      then (pyDiv (anomalies.length : ℚ) (df.length : ℚ)).map (· * 100)
      else Except.ok 0) with
  | Except.error e => Except.error e
  | Except.ok anomaly_rate =>
      let wh1 := restrictSize 400 200 chart1_png.width chart1_png.height
      let wh2 := restrictSize 400 200 chart2_png.width chart2_png.height
      Except.ok
        { story :=
            [PdfElem.para "Cloud Anomaly Detection Report" "Title",
             PdfElem.spacer 1 12,
             PdfElem.summary df.length anomalies.length anomaly_rate,
             PdfElem.spacer 1 10,
             PdfElem.para "Anomaly Trend" "Heading2",
             PdfElem.image chart1_png.data wh1.1 wh1.2,
             PdfElem.spacer 1 20,
             PdfElem.para "CPU Usage Trend" "Heading2",
             PdfElem.image chart2_png.data wh2.1 wh2.2] }

/-! ## Report section of the page (download section guard) -/

/-- Outcome of the report section of the page: either the "no data" warning,
or the two composed reports offered as downloads. -/
inductive ReportSectionResult
  | noData (warning : String)
  | reports (html_report : HtmlReport) (pdf_report : PdfReport)
deriving Repr

/-- The report section of `src/app.py` (lines 197-216): when the session
history is empty, show `st.warning("No data available yet.")`; otherwise build
the dataframe, render the two charts (`render1`, `render2` stand for
`create_anomaly_chart` and `create_cpu_chart`) and compose both reports.  The
chart renderers are black-box parameters because matplotlib rasterization is not
modelled. -/
def reportSection (render1 render2 : List Record → ChartImage)
    (history : List Record) : Except String ReportSectionResult :=
  if history.length = 0 then
    Except.ok (ReportSectionResult.noData "No data available yet.")
  else
    let df := history
    let chart1_png := render1 df
    let chart2_png := render2 df
    match generate_html_report df chart1_png chart2_png with
    | Except.error e => Except.error e
    | Except.ok html_report =>
        match generate_pdf_report df chart1_png chart2_png with
        | Except.error e => Except.error e
        | Except.ok pdf_report =>
            Except.ok (ReportSectionResult.reports html_report pdf_report)

/-! ## Delivery channel (`send_email` and the send-button handler) -/

/-- The multipart message built by `send_email`: sender, recipient, subject,
plain-text body, and the two attachments.  The PDF byte serialization and the
HTML text are abstracted as the composed documents themselves. -/
structure EmailMessage where
  sender : String
  toAddr : String
  subject : String
  body : String
  pdfAttachment : PdfReport
  htmlAttachment : HtmlReport

/-- The behaviour of the SMTP relay for one session, one field per call made
inside the `try` block of `send_email`: each step either succeeds or raises
with an exception message. -/
structure SmtpNet where
  connect : Except String Unit
  starttls : Except String Unit
  login : Except String Unit
  sendmail : EmailMessage → Except String Unit
  quit : Except String Unit

/-- The `try` block of `send_email`: `SMTP("smtp.gmail.com", 587)`,
`starttls()`, `login(...)`, `sendmail(sender, receiver, msg.as_string())`,
`quit()`, each of which may raise; the first raise aborts the session. -/
def runSmtpSession (net : SmtpNet) (msg : EmailMessage) : Except String Unit := do
  net.connect
  net.starttls
  net.login
  net.sendmail msg
  net.quit

/-- The value returned by `send_email`: Python's `True` on success, or
`str(e)` for the caught exception `e`. -/
inductive SendResult
  | success
  | failure (msg : String)
deriving DecidableEq, Repr

/-- The multipart message `send_email` constructs before the `try` block. -/
def emailMessageFor (receiver : String) (pdf_bytes : PdfReport)
    (html_text : HtmlReport) : EmailMessage :=
  { sender := "kish.vish377@gmail.com"
    toAddr := receiver
    subject := "Cloud Anomaly Detection Report"
    body := "Attached is your automatic cloud anomaly report."
    pdfAttachment := pdf_bytes
    htmlAttachment := html_text }

/-- The function `send_email(receiver, pdf_bytes, html_text)` of `src/app.py`: build the
message, run the SMTP session inside `try`, return `True` when it completes
and `str(e)` when any step raises `e`. -/
def send_email (receiver : String) (pdf_bytes : PdfReport)
    (html_text : HtmlReport) (net : SmtpNet) : SendResult :=
  match runSmtpSession net (emailMessageFor receiver pdf_bytes html_text) with
  | Except.ok _ => SendResult.success
  | Except.error e => SendResult.failure e

/-- A Streamlit status box emitted by the send-button handler. -/
inductive UIEvent
  | warningBox (text : String)
  | successBox (text : String)
  | errorBox (text : String)
deriving DecidableEq, Repr

/-- An unhandled Python fault escaping the script (Streamlit shows it as an
exception): `nameError n` is `NameError: name n is not defined`. -/
inductive ScriptFault
  | nameError (name : String)
deriving DecidableEq, Repr

/-- The `Send Email Report` button handler (`src/app.py` lines 259-267):
`if not email_to.strip()` show the warning; otherwise call
`send_email(email_to, pdf_report, html_report)` and show the success or error
box.  `reports` carries the values of the names `html_report` / `pdf_report`
when they were assigned by the report section, `none` when they never were —
in which case evaluating the argument `pdf_report` raises `NameError`. -/
def sendButtonHandler (email_to : String)
    (reports : Option (HtmlReport × PdfReport)) (net : SmtpNet) :
    Except ScriptFault UIEvent :=
  if pyStrip email_to = "" then
    Except.ok (UIEvent.warningBox "Enter a valid email address.")
  else
    match reports with
    | none => Except.error (ScriptFault.nameError "pdf_report")
    | some (html_report, pdf_report) =>
        match send_email email_to pdf_report html_report net with
        | SendResult.success =>
            Except.ok (UIEvent.successBox "📨 Email sent successfully!")
        | SendResult.failure msg =>
            Except.ok (UIEvent.errorBox ("❌ Failed to send: " ++ msg))

/-- One full run of the script from the report section to a click of the send
button: the names `html_report` and `pdf_report` are bound only when the
report section took its non-empty branch. -/
def sendEmailFlow (render1 render2 : List Record → ChartImage)
    (history : List Record) (email_to : String) (net : SmtpNet) :
    Except ScriptFault UIEvent :=
  let reports : Option (HtmlReport × PdfReport) :=
    match reportSection render1 render2 history with
    | Except.ok (ReportSectionResult.reports h p) => some (h, p)
    | _ => none
  sendButtonHandler email_to reports net

/-! ## Concrete test data -/

/-- A small PNG-style byte buffer (the 8-byte PNG signature) with a native
draw size of 300 x 100 points. -/
def exChart : ChartImage :=
  { data := [137, 80, 78, 71, 13, 10, 26, 10], width := 300, height := 100 }

/-- An oversized chart render: 800 x 300 points, larger than the 400 x 200
PDF bounding box in both dimensions. -/
def exChartBig : ChartImage :=
  { data := [137, 80], width := 800, height := 300 }

/-- A two-record history, one anomaly. -/
def ex2 : List Record :=
  [{ cpu_usage := 55, prediction := 1 }, { cpu_usage := 40, prediction := 0 }]

/-- A twelve-record history with exactly three anomalies (records 3, 6 and
10). -/
def ex12 : List Record :=
  [{ cpu_usage := 10, prediction := 0 }, { cpu_usage := 20, prediction := 0 },
   { cpu_usage := 95, prediction := 1 }, { cpu_usage := 30, prediction := 0 },
   { cpu_usage := 35, prediction := 0 }, { cpu_usage := 97, prediction := 1 },
   { cpu_usage := 40, prediction := 0 }, { cpu_usage := 45, prediction := 0 },
   { cpu_usage := 50, prediction := 0 }, { cpu_usage := 99, prediction := 1 },
   { cpu_usage := 55, prediction := 0 }, { cpu_usage := 60, prediction := 0 }]

/-- A fixed chart renderer standing in for the matplotlib chart functions. -/
def exRender : List Record → ChartImage := fun _ => exChart

/-- A relay on which every SMTP step succeeds. -/
def exNetOk : SmtpNet :=
  { connect := Except.ok (), starttls := Except.ok (), login := Except.ok ()
    sendmail := fun _ => Except.ok (), quit := Except.ok () }

/-- A relay that rejects the login, as Gmail does for a revoked app
password. -/
def exNetAuthFail : SmtpNet :=
  { exNetOk with login := Except.error "535 Authentication failed" }

/-- A concrete HTML document, used only as an email payload. -/
def exHtmlDoc : HtmlReport :=
  { chart1B64 := "", chart2B64 := "", totalSamples := 0, totalAnomalies := 0,
    anomalyRate := 0, recentData := [] }

/-- A concrete PDF document, used only as an email payload. -/
def exPdfDoc : PdfReport := { story := [] }

/-! ## Helper lemmas: report composition always succeeds, with explicit
content -/

/-- The guarded anomaly-rate expression shared by both report paths never
propagates an error: the division is only reached when `len(df)` is
non-zero. -/
theorem rate_expr_eq (a t : Nat) :
    (if t ≠ 0 then (pyDiv (a : ℚ) (t : ℚ)).map (· * 100) else Except.ok 0)
      = Except.ok (if t = 0 then 0 else (a : ℚ) / (t : ℚ) * 100) := by
  by_cases h : t = 0
  · simp [h]
  · simp [h, pyDiv, Nat.cast_eq_zero, Except.map]

/-- Evaluation of `generate_html_report`: it always succeeds, and its content is
the explicit record below. -/
theorem generate_html_report_eq (df : List Record) (c1 c2 : ChartImage) :
    generate_html_report df c1 c2 = Except.ok
      { chart1B64 := String.mk (b64EncodeBytes c1.data)
        chart2B64 := String.mk (b64EncodeBytes c2.data)
        totalSamples := df.length
        totalAnomalies := (df.filter fun r => r.prediction == 1).length
        anomalyRate := if df.length = 0 then 0
          else ((df.filter fun r => r.prediction == 1).length : ℚ) /
            (df.length : ℚ) * 100
        recentData := df.drop (df.length - 10) } := by
  simp only [generate_html_report]
  rw [rate_expr_eq]

/-- Evaluation of `generate_pdf_report`: it always succeeds, and its story is the
explicit flowable list below. -/
theorem generate_pdf_report_eq (df : List Record) (c1 c2 : ChartImage) :
    generate_pdf_report df c1 c2 = Except.ok
      { story :=
          [PdfElem.para "Cloud Anomaly Detection Report" "Title",
           PdfElem.spacer 1 12,
           PdfElem.summary df.length (df.filter fun r => r.prediction == 1).length
             (if df.length = 0 then 0
              else ((df.filter fun r => r.prediction == 1).length : ℚ) /
                (df.length : ℚ) * 100),
           PdfElem.spacer 1 10,
           PdfElem.para "Anomaly Trend" "Heading2",
           PdfElem.image c1.data (restrictSize 400 200 c1.width c1.height).1
             (restrictSize 400 200 c1.width c1.height).2,
           PdfElem.spacer 1 20,
           PdfElem.para "CPU Usage Trend" "Heading2",
           PdfElem.image c2.data (restrictSize 400 200 c2.width c2.height).1
             (restrictSize 400 200 c2.width c2.height).2] } := by
  simp only [generate_pdf_report]
  rw [rate_expr_eq]

/-! ## Base64 round trip -/

/-- Looking an alphabet character back up recovers its 6-bit value. -/
theorem b64IndexOf_charOf : ∀ n, n < 64 → b64IndexOf (b64CharOf n) = n := by
  decide

/-- No alphabet character is the padding character. -/
theorem b64CharOf_ne_pad : ∀ n, n < 64 → b64CharOf n ≠ '=' := by
  decide

/-- Base64 round trip: decoding the encoding of any byte buffer gives back the
buffer. -/
theorem b64_decode_encode : ∀ bs : List Nat, (∀ b ∈ bs, b < 256) →
    b64DecodeChars (b64EncodeBytes bs) = bs
  | [], _ => rfl
  | [b1], hb => by
      have h1 : b1 < 256 := hb b1 (by simp)
      simp only [b64EncodeBytes, b64DecodeChars]
      rw [if_pos trivial]
      rw [b64IndexOf_charOf _ (by omega), b64IndexOf_charOf _ (by omega)]
      simp only [List.cons.injEq, and_true]
      omega
  | [b1, b2], hb => by
      have h1 : b1 < 256 := hb b1 (by simp)
      have h2 : b2 < 256 := hb b2 (by simp)
      simp only [b64EncodeBytes, b64DecodeChars]
      rw [if_neg (b64CharOf_ne_pad _ (by omega)), if_pos trivial]
      rw [b64IndexOf_charOf _ (by omega), b64IndexOf_charOf _ (by omega),
        b64IndexOf_charOf _ (by omega)]
      simp only [List.cons.injEq, and_true]
      omega
  | b1 :: b2 :: b3 :: rest, hb => by
      have h1 : b1 < 256 := hb b1 (by simp)
      have h2 : b2 < 256 := hb b2 (by simp)
      have h3 : b3 < 256 := hb b3 (by simp)
      have ih := b64_decode_encode rest (fun b hbm => hb b (by simp [hbm]))
      simp only [b64EncodeBytes, b64DecodeChars]
      rw [if_neg (b64CharOf_ne_pad _ (by omega)),
        if_neg (b64CharOf_ne_pad _ (by omega))]
      rw [b64IndexOf_charOf _ (by omega), b64IndexOf_charOf _ (by omega),
        b64IndexOf_charOf _ (by omega), b64IndexOf_charOf _ (by omega)]
      rw [ih]
      simp only [List.cons.injEq, and_true]
      omega

/-! ## Bounding-box lemmas for the PDF images -/

/-- After `_restrictSize(aW, aH)`, both draw dimensions fit the bounding
box. -/
theorem restrictSize_fits (aW aH w h : ℚ) (hw : 0 < w) (hh : 0 < h) :
    (restrictSize aW aH w h).1 ≤ aW ∧ (restrictSize aW aH w h).2 ≤ aH := by
  unfold restrictSize
  split
  · constructor
    · calc w * min (aW / w) (aH / h) ≤ w * (aW / w) :=
            mul_le_mul_of_nonneg_left (min_le_left _ _) hw.le
        _ = aW := by field_simp
    · calc h * min (aW / w) (aH / h) ≤ h * (aH / h) :=
            mul_le_mul_of_nonneg_left (min_le_right _ _) hh.le
        _ = aH := by field_simp
  · next hcond =>
      push_neg at hcond
      exact hcond

/-- Scaling by `_restrictSize` is proportional: the rescaled width and height keep
the original aspect ratio. -/
theorem restrictSize_ratio (aW aH w h : ℚ) :
    (restrictSize aW aH w h).1 * h = w * (restrictSize aW aH w h).2 := by
  unfold restrictSize
  split
  · ring
  · ring

/-! ## Claim theorems -/

/-- C1: For every record snapshot and pair of chart images, the HTML report
and the PDF report present identical summary statistics computed from that one
snapshot: the PDF story's summary paragraph carries exactly the HTML report's
total sample count, anomaly count and anomaly rate. -/
theorem html_pdf_summary_agree (df : List Record) (c1 c2 : ChartImage) :
    ∃ h p, generate_html_report df c1 c2 = Except.ok h ∧
      generate_pdf_report df c1 c2 = Except.ok p ∧
      PdfElem.summary h.totalSamples h.totalAnomalies h.anomalyRate ∈ p.story := by
  refine ⟨_, _, generate_html_report_eq df c1 c2,
    generate_pdf_report_eq df c1 c2, ?_⟩
  simp

/-- C2: For every record list the composed reports succeed, and the anomaly
rate they carry equals `anomalies / total * 100` when `total > 0` and `0` when
the list is empty; in particular composing from an empty list raises no
division-by-zero fault (the fallible division is guarded). -/
theorem anomaly_rate_guarded_formula (df : List Record) (c1 c2 : ChartImage) :
    ∃ h p, generate_html_report df c1 c2 = Except.ok h ∧
      generate_pdf_report df c1 c2 = Except.ok p ∧
      PdfElem.summary df.length (df.filter fun r => r.prediction == 1).length
        h.anomalyRate ∈ p.story ∧
      (0 < df.length → h.anomalyRate =
        ((df.filter fun r => r.prediction == 1).length : ℚ) /
          (df.length : ℚ) * 100) ∧
      (df = [] → h.anomalyRate = 0) := by
  refine ⟨_, _, generate_html_report_eq df c1 c2,
    generate_pdf_report_eq df c1 c2, ?_, ?_, ?_⟩
  · simp
  · intro hpos
    simp only [if_neg (by omega : ¬ df.length = 0)]
  · intro hnil
    subst hnil
    simp

/-- C2 witness: on the twelve-record example the rate is `25`, and on the
empty history composition succeeds with rate `0`. -/
theorem anomaly_rate_guarded_formula_witness :
    (∃ h, generate_html_report ex12 exChart exChart = Except.ok h ∧
      h.anomalyRate = 25) ∧
    (∃ h, generate_html_report ([] : List Record) exChart exChart =
      Except.ok h ∧ h.anomalyRate = 0) := by
  constructor
  · obtain ⟨h, p, hh, hp, hmem, hform, hemp⟩ :=
      anomaly_rate_guarded_formula ex12 exChart exChart
    refine ⟨h, hh, ?_⟩
    rw [hform (by decide),
      show (ex12.filter fun r => r.prediction == 1).length = 3 from by decide,
      show ex12.length = 12 from by decide]
    norm_num
  · obtain ⟨h, p, hh, hp, hmem, hform, hemp⟩ :=
      anomaly_rate_guarded_formula [] exChart exChart
    exact ⟨h, hh, hemp rfl⟩

/-- C6: the anomaly count of a composed report is the number of records whose
prediction equals 1 (shown in both the HTML fields and the PDF summary
paragraph), and for a non-empty record list `anomalies ≤ total` and
`0 ≤ anomaly_rate ≤ 100`. -/
theorem anomaly_count_and_rate_bounds (df : List Record) (c1 c2 : ChartImage)
    (hne : df ≠ []) :
    ∃ h p, generate_html_report df c1 c2 = Except.ok h ∧
      generate_pdf_report df c1 c2 = Except.ok p ∧
      h.totalAnomalies = df.countP (fun r => r.prediction == 1) ∧
      PdfElem.summary h.totalSamples h.totalAnomalies h.anomalyRate ∈ p.story ∧
      h.totalAnomalies ≤ h.totalSamples ∧
      0 ≤ h.anomalyRate ∧ h.anomalyRate ≤ 100 := by
  have hlen : df.length ≠ 0 := fun h0 => hne (List.length_eq_zero.mp h0)
  refine ⟨_, _, generate_html_report_eq df c1 c2,
    generate_pdf_report_eq df c1 c2, ?_, ?_, ?_, ?_, ?_⟩
  · exact (List.countP_eq_length_filter _ _).symm
  · simp
  · exact List.length_filter_le _ _
  · dsimp only
    rw [if_neg hlen]
    positivity
  · dsimp only
    rw [if_neg hlen]
    have ht : (0 : ℚ) < (df.length : ℚ) := by
      exact_mod_cast Nat.pos_of_ne_zero hlen
    have ha : ((df.filter fun r => r.prediction == 1).length : ℚ) ≤
        (df.length : ℚ) := by
      exact_mod_cast List.length_filter_le _ _
    have hq := (div_le_one ht).mpr ha
    linarith

/-- C6 witness: twelve records with three predictions equal to 1 yield an
anomaly count of 3 and an anomaly rate of 25, within the proved bounds. -/
theorem anomaly_count_and_rate_bounds_witness :
    ∃ h p, generate_html_report ex12 exChart exChart = Except.ok h ∧
      generate_pdf_report ex12 exChart exChart = Except.ok p ∧
      h.totalAnomalies = 3 ∧ h.anomalyRate = 25 ∧
      0 ≤ h.anomalyRate ∧ h.anomalyRate ≤ 100 := by
  obtain ⟨h, p, hh, hp, hcount, hmem, hle, h0, h100⟩ :=
    anomaly_count_and_rate_bounds ex12 exChart exChart (by decide)
  have hval : h = {
      chart1B64 := String.mk (b64EncodeBytes exChart.data)
      chart2B64 := String.mk (b64EncodeBytes exChart.data)
      totalSamples := ex12.length
      totalAnomalies := (ex12.filter fun r => r.prediction == 1).length
      anomalyRate := if ex12.length = 0 then 0
        else ((ex12.filter fun r => r.prediction == 1).length : ℚ) /
          (ex12.length : ℚ) * 100
      recentData := ex12.drop (ex12.length - 10) } := by
    have := hh.symm.trans (generate_html_report_eq ex12 exChart exChart)
    exact (Except.ok.injEq _ _).mp this
  refine ⟨h, p, hh, hp, ?_, ?_, h0, h100⟩
  · rw [hval]
    decide
  · rw [hval]
    rw [show (ex12.filter fun r => r.prediction == 1).length = 3 from by decide,
      show ex12.length = 12 from by decide]
    norm_num

/-- C3 counterexample: on a concrete two-record snapshot the claim "both the
HTML and the PDF serialization contain a tabular excerpt of the last 10
records" fails on its PDF half — the PDF story built by `generate_pdf_report`
contains no table flowable at all (it holds only the title, spacers, the
summary paragraph, the two headings and the two images). -/
theorem pdf_tail_excerpt_missing :
    ¬ ∃ p, generate_pdf_report ex2 exChart exChart = Except.ok p ∧
      ∃ rows, PdfElem.table rows ∈ p.story := by
  rintro ⟨p, hp, rows, hmem⟩
  rw [generate_pdf_report_eq] at hp
  injection hp with hp
  subst hp
  simp at hmem

/-- C3 (amended): only the HTML serialization contains the tabular excerpt —
it holds the last `min(10, total)` records of the snapshot, a suffix of the
history (hence in original arrival order), and the whole snapshot whenever
`total < 10`; the PDF serialization contains no record table. -/
theorem tail_excerpt_html_only (df : List Record) (c1 c2 : ChartImage) :
    ∃ h p, generate_html_report df c1 c2 = Except.ok h ∧
      generate_pdf_report df c1 c2 = Except.ok p ∧
      h.recentData.length = min 10 df.length ∧
      h.recentData <:+ df ∧
      (df.length < 10 → h.recentData = df) ∧
      ∀ rows, PdfElem.table rows ∉ p.story := by
  refine ⟨_, _, generate_html_report_eq df c1 c2,
    generate_pdf_report_eq df c1 c2, ?_, ?_, ?_, ?_⟩
  · dsimp only
    rw [List.length_drop]
    omega
  · exact List.drop_suffix _ _
  · intro hlt
    dsimp only
    rw [show df.length - 10 = 0 from by omega, List.drop_zero]
  · intro rows hmem
    simp at hmem

/-- C3 witness: on the two-record history the HTML excerpt is the whole
history (two records, `min 10 2`), and its length is as proved. -/
theorem tail_excerpt_html_only_witness :
    ∃ h, generate_html_report ex2 exChart exChart = Except.ok h ∧
      h.recentData = ex2 ∧ h.recentData.length = min 10 ex2.length := by
  obtain ⟨h, p, hh, hp, hlen, hsuf, hshort, htab⟩ :=
    tail_excerpt_html_only ex2 exChart exChart
  exact ⟨h, hh, hshort (by decide), hlen⟩

/-- C7: the two base64 images embedded in the HTML report decode back to
exactly the chart renderer's PNG byte buffers, for any snapshot and any pair
of byte buffers. -/
theorem html_chart_base64_roundtrip (df : List Record) (c1 c2 : ChartImage)
    (hb1 : ∀ b ∈ c1.data, b < 256) (hb2 : ∀ b ∈ c2.data, b < 256) :
    ∃ h, generate_html_report df c1 c2 = Except.ok h ∧
      b64DecodeChars h.chart1B64.data = c1.data ∧
      b64DecodeChars h.chart2B64.data = c2.data := by
  refine ⟨_, generate_html_report_eq df c1 c2, ?_, ?_⟩
  · exact b64_decode_encode c1.data hb1
  · exact b64_decode_encode c2.data hb2

/-- C7 witness: the PNG-signature test buffer has bytes below 256, and the
embedded charts of the concrete report decode back to it. -/
theorem html_chart_base64_roundtrip_witness :
    (∀ b ∈ exChart.data, b < 256) ∧
    ∃ h, generate_html_report ex2 exChart exChart = Except.ok h ∧
      b64DecodeChars h.chart1B64.data = exChart.data ∧
      b64DecodeChars h.chart2B64.data = exChart.data :=
  ⟨by decide,
   html_chart_base64_roundtrip ex2 exChart exChart (by decide) (by decide)⟩

/-- C9: in the PDF story every image flowable fits the 400 x 200 bounding box
and keeps the aspect ratio of the chart it came from, for charts of any
(positive) native resolution. -/
theorem pdf_chart_bounding_box (df : List Record) (c1 c2 : ChartImage)
    (hw1 : 0 < c1.width) (hh1 : 0 < c1.height)
    (hw2 : 0 < c2.width) (hh2 : 0 < c2.height) :
    ∃ p, generate_pdf_report df c1 c2 = Except.ok p ∧
      ∀ d w h, PdfElem.image d w h ∈ p.story →
        w ≤ 400 ∧ h ≤ 200 ∧
        ((d = c1.data ∧ w * c1.height = c1.width * h) ∨
         (d = c2.data ∧ w * c2.height = c2.width * h)) := by
  refine ⟨_, generate_pdf_report_eq df c1 c2, ?_⟩
  intro d w h hmem
  simp only [List.mem_cons, List.not_mem_nil, or_false] at hmem
  rcases hmem with h9 | h9 | h9 | h9 | h9 | h9 | h9 | h9 | h9
  · exact absurd h9 (by simp)
  · exact absurd h9 (by simp)
  · exact absurd h9 (by simp)
  · exact absurd h9 (by simp)
  · exact absurd h9 (by simp)
  · rw [PdfElem.image.injEq] at h9
    obtain ⟨hd, hw, hh⟩ := h9
    subst hd; subst hw; subst hh
    exact ⟨(restrictSize_fits 400 200 c1.width c1.height hw1 hh1).1,
      (restrictSize_fits 400 200 c1.width c1.height hw1 hh1).2,
      Or.inl ⟨rfl, restrictSize_ratio 400 200 c1.width c1.height⟩⟩
  · exact absurd h9 (by simp)
  · exact absurd h9 (by simp)
  · rw [PdfElem.image.injEq] at h9
    obtain ⟨hd, hw, hh⟩ := h9
    subst hd; subst hw; subst hh
    exact ⟨(restrictSize_fits 400 200 c2.width c2.height hw2 hh2).1,
      (restrictSize_fits 400 200 c2.width c2.height hw2 hh2).2,
      Or.inr ⟨rfl, restrictSize_ratio 400 200 c2.width c2.height⟩⟩

/-- C9 witness: for the oversized 800 x 300 chart the bounding-box and
proportionality guarantees hold of the concrete PDF report. -/
theorem pdf_chart_bounding_box_witness :
    ∃ p, generate_pdf_report ex2 exChartBig exChartBig = Except.ok p ∧
      ∀ d w h, PdfElem.image d w h ∈ p.story →
        w ≤ 400 ∧ h ≤ 200 ∧
        ((d = exChartBig.data ∧ w * exChartBig.height = exChartBig.width * h) ∨
         (d = exChartBig.data ∧ w * exChartBig.height = exChartBig.width * h)) := by
  have := pdf_chart_bounding_box ex2 exChartBig exChartBig
    (by norm_num [exChartBig]) (by norm_num [exChartBig])
    (by norm_num [exChartBig]) (by norm_num [exChartBig])
  simpa using this

/-- C4: `send_email` never propagates a fault: it always returns either the
success indicator or a failure string, it succeeds exactly when the whole SMTP
session completes, and whenever any step of the session raises with message
`m`, that very message is returned as the failure description. -/
theorem send_email_never_raises (receiver : String) (pdf_bytes : PdfReport)
    (html_text : HtmlReport) (net : SmtpNet) :
    (send_email receiver pdf_bytes html_text net = SendResult.success ∨
      ∃ m, send_email receiver pdf_bytes html_text net = SendResult.failure m) ∧
    (runSmtpSession net (emailMessageFor receiver pdf_bytes html_text) =
        Except.ok () →
      send_email receiver pdf_bytes html_text net = SendResult.success) ∧
    (∀ m, runSmtpSession net (emailMessageFor receiver pdf_bytes html_text) =
        Except.error m →
      send_email receiver pdf_bytes html_text net = SendResult.failure m) := by
  refine ⟨?_, ?_, ?_⟩
  · unfold send_email
    cases runSmtpSession net (emailMessageFor receiver pdf_bytes html_text) with
    | ok u => exact Or.inl rfl
    | error e => exact Or.inr ⟨e, rfl⟩
  · intro hok
    unfold send_email
    rw [hok]
  · intro m herr
    unfold send_email
    rw [herr]

/-- C4 witness: on a relay that rejects the login, `send_email` returns the
exception message as a failure string rather than raising. -/
theorem send_email_never_raises_witness :
    send_email "user@example.com" exPdfDoc exHtmlDoc exNetAuthFail =
      SendResult.failure "535 Authentication failed" :=
  (send_email_never_raises "user@example.com" exPdfDoc exHtmlDoc
    exNetAuthFail).2.2 "535 Authentication failed" rfl

/-- C5: for a recipient that strips to the empty string, the send-button
handler emits the validation warning, and its outcome does not depend on the
relay at all — no SMTP connection is attempted and `send_email` is never
reached. -/
theorem empty_recipient_rejected (email_to : String)
    (reports : Option (HtmlReport × PdfReport)) (net : SmtpNet)
    (hblank : pyStrip email_to = "") :
    sendButtonHandler email_to reports net =
      Except.ok (UIEvent.warningBox "Enter a valid email address.") ∧
    ∀ net', sendButtonHandler email_to reports net =
      sendButtonHandler email_to reports net' := by
  constructor
  · unfold sendButtonHandler
    rw [if_pos hblank]
  · intro net'
    unfold sendButtonHandler
    rw [if_pos hblank, if_pos hblank]

/-- C5 witness: the all-whitespace recipient strips to the empty string and is
rejected with the warning box. -/
theorem empty_recipient_rejected_witness :
    pyStrip "   " = "" ∧
    sendButtonHandler "   " none exNetOk =
      Except.ok (UIEvent.warningBox "Enter a valid email address.") :=
  ⟨by decide, (empty_recipient_rejected "   " none exNetOk (by decide)).1⟩

/-- C8: with an empty sample store the report section produces exactly the
"no data" warning, detected before any rendering: its outcome does not depend
on the chart renderers, and neither charts nor reports are composed. -/
theorem empty_store_no_render (render1 render2 : List Record → ChartImage)
    (history : List Record) (hempty : history.length = 0) :
    reportSection render1 render2 history =
      Except.ok (ReportSectionResult.noData "No data available yet.") ∧
    ∀ r1 r2, reportSection render1 render2 history =
      reportSection r1 r2 history := by
  constructor
  · unfold reportSection
    rw [if_pos hempty]
  · intro r1 r2
    unfold reportSection
    rw [if_pos hempty, if_pos hempty]

/-- C8 witness: the empty history yields the "no data" warning. -/
theorem empty_store_no_render_witness :
    reportSection exRender exRender [] =
      Except.ok (ReportSectionResult.noData "No data available yet.") :=
  (empty_store_no_render exRender exRender [] rfl).1

/-- C10: clicking the send button with an empty store and a recipient that
does not strip to empty raises an unhandled `NameError` on `pdf_report` — the
report names were never assigned, so the flow faults instead of producing a
warning or a delivery-failure string. -/
theorem send_flow_empty_store_name_error
    (render1 render2 : List Record → ChartImage) (email_to : String)
    (net : SmtpNet) (hnonblank : pyStrip email_to ≠ "") :
    sendEmailFlow render1 render2 [] email_to net =
      Except.error (ScriptFault.nameError "pdf_report") := by
  show sendButtonHandler email_to none net =
    Except.error (ScriptFault.nameError "pdf_report")
  unfold sendButtonHandler
  rw [if_neg hnonblank]

/-- C10 witness: a concrete valid-looking recipient on the empty store hits
the `NameError`. -/
theorem send_flow_empty_store_name_error_witness :
    sendEmailFlow exRender exRender [] "user@example.com" exNetOk =
      Except.error (ScriptFault.nameError "pdf_report") :=
  send_flow_empty_store_name_error exRender exRender "user@example.com"
    exNetOk (by decide)
